import Mathlib

/-!
Shallow embedding of the DJI image-sorting program (`sort_images.py`) in Lean 4.

Python floats are modelled as `Rat`; Python ints as `Int`.  String rendering of
numbers mirrors Python format specifiers: `f"{v:.1f}"` / `f"{v:.2f}"` are
modelled by `fmtFixed 1` / `fmtFixed 2` (fixed precision, round half to even),
and `str(float)` (f-string interpolation of a raw float) by `pyStr` (shortest
terminating decimal expansion).  `math.sqrt` and Python string-to-number
parsing (`float(s)`, `int(s)`) are kept abstract as parameters of the
extractor, since their exact numeric behaviour is irrelevant to the properties
considered here.
-/

namespace SortImages

/-- `q * 10 ^ k` as a rational, computed on numerator and denominator
(`mkRat` normalizes, so the value is exactly the product). -/
def mulPow10 (k : Nat) (q : Rat) : Rat :=
  mkRat (q.num * Int.ofNat (Nat.pow 10 k)) q.den

/-- An integer as a rational. -/
def intToRat (n : Int) : Rat := ⟨n, 1, Nat.one_ne_zero, Nat.coprime_one_right _⟩

/-- Floor of a rational as an integer (the denominator is positive). -/
def ratFloor (q : Rat) : Int := q.num.ediv (Int.ofNat q.den)

/-- Truncation toward zero, the model of Python `int(x)` on a float. -/
def ratTrunc (q : Rat) : Int := if 0 ≤ q then ratFloor q else -(ratFloor (-q))

/-- Round-half-to-even of a rational to an integer (the rounding Python's
`format` applies). -/
def roundHalfEven (q : Rat) : Int :=
  let d : Int := Int.ofNat q.den
  let f : Int := q.num.ediv d
  let rem : Int := q.num - f * d
  if 2 * rem < d then f
  else if d < 2 * rem then f + 1
  else if f % 2 = 0 then f else f + 1

/-- Model of Python `f"{q:.<prec>f}"`: fixed-point rendering with `prec`
fractional digits. -/
def fmtFixed (prec : Nat) (q : Rat) : String :=
  let n := roundHalfEven (mulPow10 prec q)
  let sign := if n < 0 then "-" else ""
  let ds := (Nat.repr n.natAbs).data
  let ds := List.replicate (prec + 1 - ds.length) '0' ++ ds
  let k := ds.length - prec
  sign ++ String.mk (ds.take k) ++ "." ++ String.mk (ds.drop k)

/-- Model of Python `str(x)` on a float value (as interpolated by an f-string
without a format specifier): shortest terminating decimal expansion, with at
least one fractional digit. -/
def pyStr (q : Rat) : String :=
  match (List.range 18).find? (fun k => (mulPow10 k q).den == 1) with
  | some 0 => Int.repr q.num ++ ".0"
  | some k => fmtFixed k q
  | none => fmtFixed 17 q

/-- The per-image measurement record built by `get_image_metrics`
(the `metrics` dictionary of the source). -/
structure Metrics where
  width : Int
  height : Int
  digital_zoom : Rat
  focal_length : Rat
  iso : Int
  blur_score : Rat
  brightness : Rat
  distance : Rat
  speed : Rat
  gimbal_pitch : Rat
  load_error : Option String
  meta_error : Option String
  has_distance : Bool
deriving DecidableEq

/-- The threshold configuration (the `cfg` dictionary built by `load_config`). -/
structure Config where
  min_dist : Rat
  max_speed : Rat
  max_zoom : Rat
  min_blur : Rat
  min_w : Int
  min_h : Int
  max_iso : Int
  min_bright : Rat
  max_bright : Rat
deriving DecidableEq

/-- The default thresholds of `DEFAULT_CONFIG`. -/
def defaultConfig : Config :=
  { min_dist := 20, max_speed := 5, max_zoom := 1, min_blur := 100,
    min_w := 3000, min_h := 2000, max_iso := 1600,
    min_bright := 20, max_bright := 240 }

/-- Truthiness of an optional string, the model of Python `if s:` on a value
that is `None` or a `str`. -/
def strOptTruthy : Option String → Bool
  | none => false
  | some s => s ≠ ""

/-- The `grade` helper of `evaluate_image` (lines 186-194): renders a value
with two fixed decimals plus a PASS/FAIL tag and returns the comparison
outcome selected by the operator string. -/
def grade (val threshold : Rat) (op : String) (unit : String) : String × Bool :=
  let passed : Bool :=
    if op = ">" then decide (val > threshold)
    else if op = "<" then decide (val < threshold)
    else if op = "<=" then decide (val ≤ threshold)
    else if op = ">=" then decide (val ≥ threshold)
    else false
  let status := if passed then "(PASS)" else "(FAIL)"
  (fmtFixed 2 val ++ unit ++ " " ++ status, passed)

/-- The brightness branch of `evaluate_image` (lines 247-257): an optional
failure reason together with the status tag used in the diagnostic line.  The
too-dark test comes first; only when it fails is the overexposure test run. -/
def brightEval (b min_bright max_bright : Rat) : Option String × String :=
  if b < min_bright then
    (some ("Too Dark (" ++ fmtFixed 1 b ++ ")"), "(FAIL: Dark)")
  else if b > max_bright then
    (some ("Overexposed (" ++ fmtFixed 1 b ++ ")"), "(FAIL: Bright)")
  else (none, "(PASS)")

/-- One `if not passed: reasons.append(r); is_good = False` block of
`evaluate_image`, acting on the accumulated (reasons, is_good) pair. -/
def reasonStep (cond : Bool) (reason : String) (acc : List String × Bool) :
    List String × Bool :=
  if cond then (acc.1 ++ [reason], false) else acc

/-- The verdict engine `evaluate_image` (lines 177-270).  Returns
`(is_good, log_string, reasons)`. -/
def evaluate_image (m : Metrics) (cfg : Config) : Bool × String × List String :=
  let acc : List String × Bool := ([], true)
  -- 1. Resolution
  let res_str := Int.repr m.width ++ "x" ++ Int.repr m.height
  let acc := reasonStep (decide (m.width < cfg.min_w) || decide (m.height < cfg.min_h))
    ("Low Resolution (" ++ res_str ++ ")") acc
  -- 2. Zoom checks: optical labeling, then digital zoom
  let optical_type := if m.focal_length > 80 then "Zoom" else "Wide"
  let dz := grade m.digital_zoom cfg.max_zoom "<=" "x"
  let acc := reasonStep (!dz.2) ("Digital Zoom (" ++ pyStr m.digital_zoom ++ "x)") acc
  -- 3. ISO
  let isoG := grade (intToRat m.iso) (intToRat cfg.max_iso) "<=" ""
  let acc := reasonStep (!isoG.2) ("High ISO (" ++ Int.repr m.iso ++ ")") acc
  -- 4. Distance (LRF)
  let distRes :=
    if m.has_distance then
      let g := grade m.distance cfg.min_dist ">=" "m"
      (g.1, reasonStep (!g.2)
        ("Too Close (" ++ pyStr m.distance ++ "m < " ++ pyStr cfg.min_dist ++ "m)") acc)
    else ("N/A (No LRF)", acc)
  let dist_str := distRes.1
  let acc := distRes.2
  -- 5. Flight speed
  let spG := grade m.speed cfg.max_speed "<=" "m/s"
  let acc := reasonStep (!spG.2)
    ("Moving Too Fast (" ++ fmtFixed 1 m.speed ++ " m/s)") acc
  -- 6. Visual checks: load-error short circuit, then blur and brightness
  if strOptTruthy m.load_error then
    (false, "[ERROR] Could not load image: " ++ m.load_error.getD "", [m.load_error.getD ""])
  else
    let blG := grade m.blur_score cfg.min_blur ">=" ""
    let acc := reasonStep (!blG.2)
      ("Blurry (Score: " ++ fmtFixed 1 m.blur_score ++ ")") acc
    let br := brightEval m.brightness cfg.min_bright cfg.max_bright
    let acc := match br.1 with
      | some r => (acc.1 ++ [r], false)
      | none => acc
    let bright_str := fmtFixed 1 m.brightness ++ " " ++ br.2
    let log_string :=
      "Lens: " ++ optical_type ++ " (" ++ Int.repr (ratTrunc m.focal_length) ++ "mm) | " ++
      "DigZoom: " ++ dz.1 ++ " | " ++
      "Dist: " ++ dist_str ++ " | " ++
      "Speed: " ++ spG.1 ++ " | " ++
      "Blur: " ++ blG.1 ++ " | " ++
      "Bright: " ++ bright_str
    (acc.2, log_string, acc.1)

/-! ## The metric extractor (`get_image_metrics`, lines 89-175)

The exiftool collaborator returns a mapping of tag names to raw values; raw
values are modelled by `PyVal` (an int, a float, or a string).  Python's
string-to-number conversions and `math.sqrt` are abstract parameters
(`ExtractorEnv`); a conversion result of `none` models a raised `ValueError`.
An uncaught conversion error inside the metadata `try` block aborts the rest
of the block and is recorded in `meta_error` (the `except` handler at line
155); only the flight-speed parse has its own inner `try` (lines 141-147). -/

/-- A raw metadata tag value as returned by the exiftool collaborator. -/
inductive PyVal where
  | int (n : Int)
  | float (q : Rat)
  | str (s : String)
deriving DecidableEq

/-- The metadata tags read by `get_image_metrics`.  Width/height tags are
numeric (they are compared with `0` and stored unconverted). -/
structure RawMeta where
  exifImageWidth : Option Int := none
  exifImageHeight : Option Int := none
  imageWidth : Option Int := none
  imageHeight : Option Int := none
  digitalZoomRatio : Option PyVal := none
  isoTag : Option PyVal := none
  focalLength35efl : Option PyVal := none
  focalLengthIn35mm : Option PyVal := none
  lrfTargetDistance : Option PyVal := none
  flightSpeed : Option PyVal := none
  gimbalPitchDegree : Option PyVal := none
deriving DecidableEq

/-- Abstract models of the numeric primitives the extractor calls:
`float(s)` and `int(s)` on strings (`none` models a raised `ValueError`) and
`math.sqrt`. -/
structure ExtractorEnv where
  strFloat : String → Option Rat
  strInt : String → Option Int
  sqrt : Rat → Rat

/-- Python `float(v)` on a raw tag value. -/
def pyFloat (env : ExtractorEnv) : PyVal → Option Rat
  | .int n => some (intToRat n)
  | .float q => some q
  | .str s => env.strFloat s

/-- Python `int(v)` on a raw tag value (floats truncate toward zero). -/
def pyInt (env : ExtractorEnv) : PyVal → Option Int
  | .int n => some n
  | .float q => some (ratTrunc q)
  | .str s => env.strInt s

/-- Python truthiness of a raw tag value. -/
def pyTruthy : PyVal → Bool
  | .int n => n ≠ 0
  | .float q => q ≠ 0
  | .str s => s ≠ ""

/-- Python `a or b`. -/
def pyOr (a b : PyVal) : PyVal := if pyTruthy a then a else b

/-- Model of `str(e)` for a failed numeric conversion.  Only its presence in
`meta_error` is ever observable downstream, never its content. -/
def convErr : String := "could not convert value"

/-- Helper for `splitComma`: accumulates the current component (reversed). -/
def splitCommaAux : List Char → List Char → List String
  | [], cur => [String.mk cur.reverse]
  | ch :: rest, cur =>
    if ch = ',' then String.mk cur.reverse :: splitCommaAux rest []
    else splitCommaAux rest (ch :: cur)

/-- Model of Python `s.split(',')`: `"" ↦ [""]`, `"0,3,4" ↦ ["0","3","4"]`,
empty components preserved. -/
def splitComma (s : String) : List String := splitCommaAux s.data []

/-- The list comprehension `[float(x) for x in parts]`: converts every
component left to right, failing (raising) as soon as one conversion fails. -/
def floatList (f : String → Option Rat) : List String → Option (List Rat)
  | [] => some []
  | s :: rest =>
    match f s, floatList f rest with
    | some v, some vs => some (v :: vs)
    | _, _ => none

/-- The flight-speed parse (lines 140-147): split the comma-delimited string,
convert every component with `float`, and if at least three components
resulted, take the Euclidean magnitude of the first three.  Any conversion
failure (or a non-string value, whose `.split` raises `AttributeError`) is
swallowed by the inner `try` and leaves the speed at `0.0`. -/
def computeSpeedVal (env : ExtractorEnv) : PyVal → Rat
  | .str s =>
    match floatList env.strFloat (splitComma s) with
    | some (x :: y :: z :: _) => env.sqrt (x * x + y * y + z * z)
    | _ => 0
  | _ => 0

/-- Steps 6-7 of the metadata block: flight speed (guarded by truthiness of
the tag value), then gimbal pitch. -/
def extract_speed_gimbal (env : ExtractorEnv) (md : RawMeta) (m : Metrics) : Metrics :=
  let m :=
    match md.flightSpeed with
    | some v => if pyTruthy v then { m with speed := computeSpeedVal env v } else m
    | none => m
  match pyFloat env ((md.gimbalPitchDegree).getD (.int 0)) with
  | some g => { m with gimbal_pitch := g }
  | none => { m with meta_error := some convErr }

/-- The metadata block of `get_image_metrics` (lines 112-150): resolution
with fallback tags, digital zoom, ISO, focal length (`or`-fallback), optional
LRF distance, flight speed, gimbal pitch.  A failed conversion escapes to the
`except` handler: `meta_error` is set and the remaining steps are skipped,
fields updated so far keeping their values. -/
def extract_meta (env : ExtractorEnv) (md : RawMeta) (m : Metrics) : Metrics :=
  let w := (md.exifImageWidth).getD 0
  let h := (md.exifImageHeight).getD 0
  let w := if w = 0 then (md.imageWidth).getD 0 else w
  let h := if h = 0 then (md.imageHeight).getD 0 else h
  let m := { m with width := w, height := h }
  match pyFloat env ((md.digitalZoomRatio).getD (.float 1)) with
  | none => { m with meta_error := some convErr }
  | some dz =>
    let m := { m with digital_zoom := dz }
    match pyInt env ((md.isoTag).getD (.int 0)) with
    | none => { m with meta_error := some convErr }
    | some isoV =>
      let m := { m with iso := isoV }
      match pyFloat env
          (pyOr ((md.focalLength35efl).getD (.int 0)) ((md.focalLengthIn35mm).getD (.int 0))) with
      | none => { m with meta_error := some convErr }
      | some fl =>
        let m := { m with focal_length := fl }
        match md.lrfTargetDistance with
        | none => extract_speed_gimbal env md m
        | some dv =>
          match pyFloat env dv with
          | none => { m with meta_error := some convErr }
          | some d =>
            extract_speed_gimbal env md { m with distance := d, has_distance := true }

/-- The metrics dictionary as initialized at lines 94-107. -/
def initMetrics : Metrics :=
  { width := 0, height := 0, digital_zoom := 1, focal_length := 0, iso := 0,
    blur_score := 0, brightness := 0, distance := 9999, speed := 0,
    gimbal_pitch := 0, load_error := none, meta_error := none, has_distance := false }

/-- `get_image_metrics` (lines 89-175).  `mdRes` is the outcome of the
exiftool call (`error` models a raised exception, `ok none` an empty result
list); `vis` is the outcome of the grayscale load plus blur/brightness
computation, `(blur_score, brightness)` on success. -/
def get_image_metrics (env : ExtractorEnv)
    (mdRes : Except String (Option RawMeta)) (vis : Except String (Rat × Rat)) : Metrics :=
  let m := initMetrics
  let m :=
    match mdRes with
    | .ok (some md) => extract_meta env md m
    | .ok none => { m with meta_error := some "No Metadata Found" }
    | .error e => { m with meta_error := some e }
  match vis with
  | .ok bb => { m with blur_score := bb.1, brightness := bb.2 }
  | .error e => { m with load_error := some e }

/-! ## Criterion-level characterization of the verdict engine

The following definitions name the seven criteria exactly as `evaluate_image`
tests them; the master lemmas below prove that the engine's accumulated
verdict, reasons list and diagnostic line coincide with them. -/

/-- Resolution criterion passes (line 198). -/
def resPass (m : Metrics) (cfg : Config) : Prop :=
  ¬(m.width < cfg.min_w ∨ m.height < cfg.min_h)

/-- Digital-zoom criterion passes (line 209). -/
def zoomPass (m : Metrics) (cfg : Config) : Prop := m.digital_zoom ≤ cfg.max_zoom

/-- ISO criterion passes (line 215). -/
def isoPass (m : Metrics) (cfg : Config) : Prop := intToRat m.iso ≤ intToRat cfg.max_iso

/-- Distance criterion passes, when evaluated (line 222). -/
def distPass (m : Metrics) (cfg : Config) : Prop := m.distance ≥ cfg.min_dist

/-- Speed criterion passes (line 231). -/
def speedPass (m : Metrics) (cfg : Config) : Prop := m.speed ≤ cfg.max_speed

/-- Blur criterion passes (line 241). -/
def blurPass (m : Metrics) (cfg : Config) : Prop := m.blur_score ≥ cfg.min_blur

/-- Brightness criterion passes (lines 249-253). -/
def brightPass (m : Metrics) (cfg : Config) : Prop :=
  ¬(m.brightness < cfg.min_bright) ∧ ¬(m.brightness > cfg.max_bright)

instance (m : Metrics) (cfg : Config) : Decidable (resPass m cfg) := by
  unfold resPass; infer_instance
instance (m : Metrics) (cfg : Config) : Decidable (zoomPass m cfg) := by
  unfold zoomPass; infer_instance
instance (m : Metrics) (cfg : Config) : Decidable (isoPass m cfg) := by
  unfold isoPass; infer_instance
instance (m : Metrics) (cfg : Config) : Decidable (distPass m cfg) := by
  unfold distPass; infer_instance
instance (m : Metrics) (cfg : Config) : Decidable (speedPass m cfg) := by
  unfold speedPass; infer_instance
instance (m : Metrics) (cfg : Config) : Decidable (blurPass m cfg) := by
  unfold blurPass; infer_instance
instance (m : Metrics) (cfg : Config) : Decidable (brightPass m cfg) := by
  unfold brightPass; infer_instance

/-- The failure-reason string of the resolution criterion (line 199). -/
def resReason (m : Metrics) : String :=
  "Low Resolution (" ++ (Int.repr m.width ++ "x" ++ Int.repr m.height) ++ ")"

/-- The failure-reason string of the digital-zoom criterion (line 211). -/
def zoomReason (m : Metrics) : String :=
  "Digital Zoom (" ++ pyStr m.digital_zoom ++ "x)"

/-- The failure-reason string of the ISO criterion (line 217). -/
def isoReason (m : Metrics) : String := "High ISO (" ++ Int.repr m.iso ++ ")"

/-- The failure-reason string of the distance criterion (line 224). -/
def distReason (m : Metrics) (cfg : Config) : String :=
  "Too Close (" ++ pyStr m.distance ++ "m < " ++ pyStr cfg.min_dist ++ "m)"

/-- The failure-reason string of the speed criterion (line 233). -/
def speedReason (m : Metrics) : String :=
  "Moving Too Fast (" ++ fmtFixed 1 m.speed ++ " m/s)"

/-- The failure-reason string of the blur criterion (line 243). -/
def blurReason (m : Metrics) : String :=
  "Blurry (Score: " ++ fmtFixed 1 m.blur_score ++ ")"

/-- The too-dark failure-reason string (line 250). -/
def darkReason (m : Metrics) : String :=
  "Too Dark (" ++ fmtFixed 1 m.brightness ++ ")"

/-- The overexposed failure-reason string (line 254). -/
def overReason (m : Metrics) : String :=
  "Overexposed (" ++ fmtFixed 1 m.brightness ++ ")"

/-- Overall acceptance: every evaluated criterion passes; the distance
criterion is evaluated only when `has_distance`. -/
def acceptSpec (m : Metrics) (cfg : Config) : Prop :=
  resPass m cfg ∧ zoomPass m cfg ∧ isoPass m cfg ∧
  (m.has_distance = true → distPass m cfg) ∧
  speedPass m cfg ∧ blurPass m cfg ∧ brightPass m cfg

instance (m : Metrics) (cfg : Config) : Decidable (acceptSpec m cfg) := by
  unfold acceptSpec; infer_instance

/-- The reasons list: one formatted string per failing criterion, in the
fixed order resolution, digital zoom, ISO, distance, speed, blur,
brightness; a skipped distance criterion contributes nothing. -/
def reasonsSpec (m : Metrics) (cfg : Config) : List String :=
  (if m.width < cfg.min_w ∨ m.height < cfg.min_h then [resReason m] else []) ++
  (if m.digital_zoom > cfg.max_zoom then [zoomReason m] else []) ++
  (if intToRat m.iso > intToRat cfg.max_iso then [isoReason m] else []) ++
  (if m.has_distance then (if m.distance < cfg.min_dist then [distReason m cfg] else [])
   else []) ++
  (if m.speed > cfg.max_speed then [speedReason m] else []) ++
  (if m.blur_score < cfg.min_blur then [blurReason m] else []) ++
  (if m.brightness < cfg.min_bright then [darkReason m]
   else if m.brightness > cfg.max_bright then [overReason m] else [])

/-- PASS/FAIL tag of a diagnostic slot. -/
def passFail (b : Bool) : String := if b then "(PASS)" else "(FAIL)"

/-- The lens label of the diagnostic line (lines 204-206). -/
def lensLabel (m : Metrics) : String := if m.focal_length > 80 then "Zoom" else "Wide"

/-- The digital-zoom slot of the diagnostic line: value, unit, PASS/FAIL. -/
def zoomSlot (m : Metrics) (cfg : Config) : String :=
  fmtFixed 2 m.digital_zoom ++ "x" ++ " " ++ passFail (decide (zoomPass m cfg))

/-- The distance slot of the diagnostic line: graded value, or the no-LRF
placeholder when the criterion is skipped. -/
def distSlot (m : Metrics) (cfg : Config) : String :=
  if m.has_distance then
    fmtFixed 2 m.distance ++ "m" ++ " " ++ passFail (decide (distPass m cfg))
  else "N/A (No LRF)"

/-- The speed slot of the diagnostic line: value, unit, PASS/FAIL. -/
def speedSlot (m : Metrics) (cfg : Config) : String :=
  fmtFixed 2 m.speed ++ "m/s" ++ " " ++ passFail (decide (speedPass m cfg))

/-- The blur slot of the diagnostic line: value (no unit), PASS/FAIL. -/
def blurSlot (m : Metrics) (cfg : Config) : String :=
  fmtFixed 2 m.blur_score ++ "" ++ " " ++ passFail (decide (blurPass m cfg))

/-- The brightness slot of the diagnostic line (line 257); its tag is
`(PASS)`, `(FAIL: Dark)` or `(FAIL: Bright)`. -/
def brightSlot (m : Metrics) (cfg : Config) : String :=
  fmtFixed 1 m.brightness ++ " " ++
    (brightEval m.brightness cfg.min_bright cfg.max_bright).2

/-- The full diagnostic line (lines 261-268). -/
def logLineSpec (m : Metrics) (cfg : Config) : String :=
  "Lens: " ++ lensLabel m ++ " (" ++ Int.repr (ratTrunc m.focal_length) ++ "mm) | " ++
  "DigZoom: " ++ zoomSlot m cfg ++ " | " ++
  "Dist: " ++ distSlot m cfg ++ " | " ++
  "Speed: " ++ speedSlot m cfg ++ " | " ++
  "Blur: " ++ blurSlot m cfg ++ " | " ++
  "Bright: " ++ brightSlot m cfg

/-! ## Master lemmas: the engine agrees with the criterion-level
characterization -/

theorem grade_le (v t : Rat) (u : String) :
    grade v t "<=" u =
      (fmtFixed 2 v ++ u ++ " " ++ passFail (decide (v ≤ t)), decide (v ≤ t)) := rfl

theorem grade_ge (v t : Rat) (u : String) :
    grade v t ">=" u =
      (fmtFixed 2 v ++ u ++ " " ++ passFail (decide (v ≥ t)), decide (v ≥ t)) := rfl

theorem reasonStep_eq (c : Bool) (r : String) (acc : List String × Bool) :
    reasonStep c r acc = (acc.1 ++ (if c then [r] else []), acc.2 && !c) := by
  cases c <;> simp [reasonStep]

theorem ite_bnot_decide {α : Sort _} (p : Prop) [Decidable p] (a b : α) :
    (if (!decide p) = true then a else b) = if ¬p then a else b := by
  by_cases h : p <;> simp [h]

/-- Normal path: when the load error is absent (or falsy), `evaluate_image`
returns exactly the acceptance conjunction, the slot-built diagnostic line
and the ordered per-criterion reasons list. -/
theorem evaluate_image_ok (m : Metrics) (cfg : Config)
    (h : strOptTruthy m.load_error = false) :
    evaluate_image m cfg =
      (decide (acceptSpec m cfg), logLineSpec m cfg, reasonsSpec m cfg) := by
  by_cases hd : m.has_distance = true <;>
  by_cases hb1 : m.brightness < cfg.min_bright <;>
  by_cases hb2 : m.brightness > cfg.max_bright <;>
  simp only [evaluate_image, h, grade_le, grade_ge, reasonStep_eq, brightEval,
    hd, hb1, hb2, if_true, if_false, Bool.false_eq_true, Bool.true_and,
    Bool.not_not, List.nil_append, List.append_assoc, Bool.and_assoc,
    acceptSpec, reasonsSpec, logLineSpec, lensLabel, zoomSlot, distSlot,
    speedSlot, blurSlot, brightSlot, resPass, zoomPass, isoPass, distPass,
    speedPass, blurPass, brightPass, resReason, zoomReason, isoReason,
    distReason, speedReason, blurReason, darkReason, overReason,
    Bool.decide_and, Bool.decide_or, decide_not, decide_eq_true_eq,
    Bool.or_eq_true, ite_bnot_decide, ite_not, Bool.not_true, Bool.not_false,
    decide_True, decide_False, Bool.and_true, Bool.and_false, Bool.false_and,
    not_true, not_false_iff, ge_iff_le, gt_iff_lt, not_lt, not_le,
    true_implies, false_implies, List.append_nil]

/-- Short-circuit path: a truthy load error rejects immediately, the reasons
list holds exactly the error text, and the diagnostic line is the fixed
prefix followed by the error text. -/
theorem evaluate_image_err (m : Metrics) (cfg : Config) (e : String)
    (he : m.load_error = some e) (hne : e ≠ "") :
    evaluate_image m cfg =
      (false, "[ERROR] Could not load image: " ++ e, [e]) := by
  unfold evaluate_image
  simp [he, strOptTruthy, hne]

/-! ## String-disjointness helpers for the reason formats -/

/-- Two appends rooted at literals neither of which extends the other are
distinct strings. -/
theorem append_ne_append (a b x y : String)
    (h1 : ¬ a.data <+: b.data) (h2 : ¬ b.data <+: a.data) : a ++ x ≠ b ++ y := by
  intro h
  have hd := congrArg String.data h
  rw [String.data_append, String.data_append] at hd
  rcases List.append_eq_append_iff.1 hd with ⟨u, hu, _⟩ | ⟨u, hu, _⟩
  · exact h1 ⟨u, hu.symm⟩
  · exact h2 ⟨u, hu.symm⟩

theorem resReason_eq (m : Metrics) :
    resReason m =
      "Low Resolution (" ++ ((Int.repr m.width ++ "x" ++ Int.repr m.height) ++ ")") := by
  rw [resReason, String.append_assoc]

theorem zoomReason_eq (m : Metrics) :
    zoomReason m = "Digital Zoom (" ++ (pyStr m.digital_zoom ++ "x)") := by
  rw [zoomReason, String.append_assoc]

theorem isoReason_eq (m : Metrics) :
    isoReason m = "High ISO (" ++ (Int.repr m.iso ++ ")") := by
  rw [isoReason, String.append_assoc]

theorem distReason_eq (m : Metrics) (cfg : Config) :
    distReason m cfg =
      "Too Close (" ++ (pyStr m.distance ++ "m < " ++ pyStr cfg.min_dist ++ "m)") := by
  simp [distReason, String.append_assoc]

theorem speedReason_eq (m : Metrics) :
    speedReason m = "Moving Too Fast (" ++ (fmtFixed 1 m.speed ++ " m/s)") := by
  rw [speedReason, String.append_assoc]

theorem blurReason_eq (m : Metrics) :
    blurReason m = "Blurry (Score: " ++ (fmtFixed 1 m.blur_score ++ ")") := by
  rw [blurReason, String.append_assoc]

theorem darkReason_eq (m : Metrics) :
    darkReason m = "Too Dark (" ++ (fmtFixed 1 m.brightness ++ ")") := by
  rw [darkReason, String.append_assoc]

theorem overReason_eq (m : Metrics) :
    overReason m = "Overexposed (" ++ (fmtFixed 1 m.brightness ++ ")") := by
  rw [overReason, String.append_assoc]

theorem darkReason_ne_resReason (m m' : Metrics) : darkReason m ≠ resReason m' := by
  rw [darkReason_eq, resReason_eq]
  exact append_ne_append _ _ _ _ (by decide) (by decide)

theorem darkReason_ne_zoomReason (m m' : Metrics) : darkReason m ≠ zoomReason m' := by
  rw [darkReason_eq, zoomReason_eq]
  exact append_ne_append _ _ _ _ (by decide) (by decide)

theorem darkReason_ne_isoReason (m m' : Metrics) : darkReason m ≠ isoReason m' := by
  rw [darkReason_eq, isoReason_eq]
  exact append_ne_append _ _ _ _ (by decide) (by decide)

theorem darkReason_ne_distReason (m m' : Metrics) (cfg : Config) :
    darkReason m ≠ distReason m' cfg := by
  rw [darkReason_eq, distReason_eq]
  exact append_ne_append _ _ _ _ (by decide) (by decide)

theorem darkReason_ne_speedReason (m m' : Metrics) : darkReason m ≠ speedReason m' := by
  rw [darkReason_eq, speedReason_eq]
  exact append_ne_append _ _ _ _ (by decide) (by decide)

theorem darkReason_ne_blurReason (m m' : Metrics) : darkReason m ≠ blurReason m' := by
  rw [darkReason_eq, blurReason_eq]
  exact append_ne_append _ _ _ _ (by decide) (by decide)

theorem overReason_ne_resReason (m m' : Metrics) : overReason m ≠ resReason m' := by
  rw [overReason_eq, resReason_eq]
  exact append_ne_append _ _ _ _ (by decide) (by decide)

theorem overReason_ne_zoomReason (m m' : Metrics) : overReason m ≠ zoomReason m' := by
  rw [overReason_eq, zoomReason_eq]
  exact append_ne_append _ _ _ _ (by decide) (by decide)

theorem overReason_ne_isoReason (m m' : Metrics) : overReason m ≠ isoReason m' := by
  rw [overReason_eq, isoReason_eq]
  exact append_ne_append _ _ _ _ (by decide) (by decide)

theorem overReason_ne_distReason (m m' : Metrics) (cfg : Config) :
    overReason m ≠ distReason m' cfg := by
  rw [overReason_eq, distReason_eq]
  exact append_ne_append _ _ _ _ (by decide) (by decide)

theorem overReason_ne_speedReason (m m' : Metrics) : overReason m ≠ speedReason m' := by
  rw [overReason_eq, speedReason_eq]
  exact append_ne_append _ _ _ _ (by decide) (by decide)

theorem overReason_ne_blurReason (m m' : Metrics) : overReason m ≠ blurReason m' := by
  rw [overReason_eq, blurReason_eq]
  exact append_ne_append _ _ _ _ (by decide) (by decide)

theorem overReason_ne_darkReason (m m' : Metrics) : overReason m ≠ darkReason m' := by
  rw [overReason_eq, darkReason_eq]
  exact append_ne_append _ _ _ _ (by decide) (by decide)

/-- Membership of the too-dark reason in the spec reasons list characterizes
the too-dark failure. -/
theorem darkReason_mem_reasonsSpec (m : Metrics) (cfg : Config) :
    darkReason m ∈ reasonsSpec m cfg ↔ m.brightness < cfg.min_bright := by
  constructor
  · intro h
    simp only [reasonsSpec, List.mem_append] at h
    rcases h with ((((((h | h) | h) | h) | h) | h) | h) <;>
      split_ifs at h <;> simp_all <;>
      first
      | exact absurd h (darkReason_ne_resReason m m)
      | exact absurd h (darkReason_ne_zoomReason m m)
      | exact absurd h (darkReason_ne_isoReason m m)
      | exact absurd h (darkReason_ne_distReason m m cfg)
      | exact absurd h (darkReason_ne_speedReason m m)
      | exact absurd h (darkReason_ne_blurReason m m)
      | exact absurd h (overReason_ne_darkReason m m).symm
  · intro h
    simp [reasonsSpec, h]

/-- Membership of the overexposed reason in the spec reasons list
characterizes the overexposure failure. -/
theorem overReason_mem_reasonsSpec (m : Metrics) (cfg : Config) :
    overReason m ∈ reasonsSpec m cfg ↔
      ¬ m.brightness < cfg.min_bright ∧ m.brightness > cfg.max_bright := by
  constructor
  · intro h
    simp only [reasonsSpec, List.mem_append] at h
    rcases h with ((((((h | h) | h) | h) | h) | h) | h) <;>
      split_ifs at h <;> simp_all <;>
      first
      | exact absurd h (overReason_ne_resReason m m)
      | exact absurd h (overReason_ne_zoomReason m m)
      | exact absurd h (overReason_ne_isoReason m m)
      | exact absurd h (overReason_ne_distReason m m cfg)
      | exact absurd h (overReason_ne_speedReason m m)
      | exact absurd h (overReason_ne_blurReason m m)
      | exact absurd h (overReason_ne_darkReason m m)
  · intro h
    simp [reasonsSpec, h.1, h.2]

/-! ## Extractor helper lemmas -/

theorem floatList_none_of_mem (f : String → Option Rat) (l : List String)
    (x : String) (hx : x ∈ l) (hf : f x = none) : floatList f l = none := by
  induction l with
  | nil => cases hx
  | cons a rest ih =>
    rcases List.mem_cons.1 hx with rfl | hmem
    · simp [floatList, hf]
    · cases ha : f a <;> simp [floatList, ha, ih hmem]

theorem floatList_length (f : String → Option Rat) (l : List String)
    (vs : List Rat) (h : floatList f l = some vs) : vs.length = l.length := by
  induction l generalizing vs with
  | nil => simp [floatList] at h; simp [← h]
  | cons a rest ih =>
    cases ha : f a <;> cases hr : floatList f rest <;>
      simp [floatList, ha, hr] at h
    subst h
    simp [ih _ hr]

/-- All conversions before the flight-speed step succeed (digital zoom, ISO,
focal length, and the distance tag when present). -/
def metaPrefixOk (env : ExtractorEnv) (md : RawMeta) : Prop :=
  (pyFloat env ((md.digitalZoomRatio).getD (.float 1))).isSome ∧
  (pyInt env ((md.isoTag).getD (.int 0))).isSome ∧
  (pyFloat env (pyOr ((md.focalLength35efl).getD (.int 0))
      ((md.focalLengthIn35mm).getD (.int 0)))).isSome ∧
  (∀ dv, md.lrfTargetDistance = some dv → (pyFloat env dv).isSome)

/-- When all earlier conversions succeed, the stored speed is exactly the
flight-speed parse of the tag (0 when the tag is absent or falsy). -/
theorem get_image_metrics_speed (env : ExtractorEnv) (md : RawMeta)
    (vis : Except String (Rat × Rat)) (h : metaPrefixOk env md) :
    (get_image_metrics env (.ok (some md)) vis).speed =
      (match md.flightSpeed with
       | some v => if pyTruthy v then computeSpeedVal env v else 0
       | none => 0) := by
  obtain ⟨h1, h2, h3, h4⟩ := h
  rcases Option.isSome_iff_exists.1 h1 with ⟨dz, hdz⟩
  rcases Option.isSome_iff_exists.1 h2 with ⟨isoV, hiso⟩
  rcases Option.isSome_iff_exists.1 h3 with ⟨fl, hfl⟩
  cases hl : md.lrfTargetDistance with
  | none =>
    cases hf : md.flightSpeed <;>
    cases hg : pyFloat env ((md.gimbalPitchDegree).getD (.int 0)) <;>
    cases vis <;>
    simp_all [get_image_metrics, extract_meta, extract_speed_gimbal, initMetrics] <;>
    split <;> rfl
  | some dv =>
    rcases Option.isSome_iff_exists.1 (h4 dv hl) with ⟨d, hd⟩
    cases hf : md.flightSpeed <;>
    cases hg : pyFloat env ((md.gimbalPitchDegree).getD (.int 0)) <;>
    cases vis <;>
    simp_all [get_image_metrics, extract_meta, extract_speed_gimbal, initMetrics] <;>
    split <;> rfl

/-- With no flight-speed tag the stored speed is 0, whatever else happens. -/
theorem get_image_metrics_speed_noTag (env : ExtractorEnv) (md : RawMeta)
    (vis : Except String (Rat × Rat)) (hf : md.flightSpeed = none) :
    (get_image_metrics env (.ok (some md)) vis).speed = 0 := by
  unfold get_image_metrics extract_meta extract_speed_gimbal
  simp only [hf]
  repeat' split
  all_goals simp_all [initMetrics]

/-- With no metadata record at all the stored speed is 0. -/
theorem get_image_metrics_speed_err (env : ExtractorEnv)
    (mdRes : Except String (Option RawMeta)) (vis : Except String (Rat × Rat))
    (h : ∀ md, mdRes ≠ .ok (some md)) :
    (get_image_metrics env mdRes vis).speed = 0 := by
  cases mdRes with
  | error e => cases vis <;> simp [get_image_metrics, initMetrics]
  | ok o =>
    cases o with
    | none => cases vis <;> simp [get_image_metrics, initMetrics]
    | some md => exact absurd rfl (h md)

/-! ## Claims -/

/-- C1 (counterexample): for a record whose `load_error` is `"E"`, the verdict
is rejected with sole reason `"E"`, but the diagnostic line is NOT the literal
error message: it is the fixed prefix `"[ERROR] Could not load image: "`
followed by the error text, so the claim's diagnostic clause fails. -/
theorem C1_counterexample :
    ({ initMetrics with load_error := some "E" } : Metrics).load_error = some "E" ∧
    (evaluate_image { initMetrics with load_error := some "E" } defaultConfig).2.2 = ["E"] ∧
    (evaluate_image { initMetrics with load_error := some "E" } defaultConfig).2.1 ≠ "E" ∧
    (evaluate_image { initMetrics with load_error := some "E" } defaultConfig).2.1 =
      "[ERROR] Could not load image: E" := by
  exact ⟨rfl, by decide, by decide, by decide⟩

/-- C1 (amended): for every record whose `load_error` is a non-empty string
`e` and every configuration, `evaluate_image` returns a rejected verdict
whose reasons list is exactly `[e]` and whose diagnostic line is the fixed
prefix `"[ERROR] Could not load image: "` followed by `e`, regardless of all
other record fields; no other criterion contributes to the reasons or the
diagnostic.  (An empty error string is falsy in Python and does not trigger
the short circuit.) -/
theorem C1_load_error_short_circuit (m : Metrics) (cfg : Config) (e : String)
    (he : m.load_error = some e) (hne : e ≠ "") :
    evaluate_image m cfg = (false, "[ERROR] Could not load image: " ++ e, [e]) :=
  evaluate_image_err m cfg e he hne

theorem C1_witness :
    ({ initMetrics with load_error := some "E" } : Metrics).load_error = some "E" ∧
    "E" ≠ "" ∧
    evaluate_image { initMetrics with load_error := some "E" } defaultConfig =
      (false, "[ERROR] Could not load image: E", ["E"]) :=
  ⟨rfl, by decide,
    C1_load_error_short_circuit { initMetrics with load_error := some "E" }
      defaultConfig "E" rfl (by decide)⟩

/-- The record of the spec's ISO scenario: every field within the default
bounds except `iso = 2000` against `max_iso = 1600`. -/
def isoExample : Metrics :=
  { width := 4000, height := 3000, digital_zoom := 1, focal_length := 24,
    iso := 2000, blur_score := 300, brightness := 120, distance := 50,
    speed := mkRat 6 5, gimbal_pitch := 0, load_error := none,
    meta_error := none, has_distance := true }

/-- C2: with no load error, the verdict is accepted iff every evaluated
criterion passes (a skipped distance criterion counts as passing), and the
reasons list holds exactly one formatted string per failing criterion in the
fixed order resolution, digital zoom, ISO, distance, speed, blur,
brightness; in particular the record whose only violation is `iso = 2000`
against `max_iso = 1600` is rejected with reasons exactly
`["High ISO (2000)"]`. -/
theorem C2_accept_iff_all_pass (m : Metrics) (cfg : Config)
    (h : m.load_error = none) :
    ((evaluate_image m cfg).1 = true ↔ acceptSpec m cfg) ∧
    (evaluate_image m cfg).2.2 = reasonsSpec m cfg ∧
    (evaluate_image isoExample defaultConfig).1 = false ∧
    (evaluate_image isoExample defaultConfig).2.2 = ["High ISO (2000)"] := by
  have hm := evaluate_image_ok m cfg (by simp [strOptTruthy, h])
  rw [hm]
  exact ⟨by simp, rfl, by decide, by decide⟩

theorem C2_witness :
    isoExample.load_error = none ∧
    ((evaluate_image isoExample defaultConfig).1 = true ↔
      acceptSpec isoExample defaultConfig) ∧
    (evaluate_image isoExample defaultConfig).2.2 =
      reasonsSpec isoExample defaultConfig ∧
    (evaluate_image isoExample defaultConfig).1 = false ∧
    (evaluate_image isoExample defaultConfig).2.2 = ["High ISO (2000)"] :=
  ⟨rfl, C2_accept_iff_all_pass isoExample defaultConfig rfl⟩

/-- C3 (counterexample): a record with `has_distance = false` but a load
error set yields the short-circuit diagnostic, which does not show the
`"N/A (No LRF)"` placeholder anywhere, so the claim's diagnostic clause
fails for such fields. -/
theorem C3_counterexample :
    ({ initMetrics with load_error := some "X" } : Metrics).has_distance = false ∧
    (evaluate_image { initMetrics with load_error := some "X" } defaultConfig).2.1 =
      "[ERROR] Could not load image: X" ∧
    ¬ ("N/A (No LRF)".data <:+:
      (evaluate_image { initMetrics with load_error := some "X" } defaultConfig).2.1.data) := by
  exact ⟨rfl, by decide, by decide⟩

/-- C3 (amended): for every record with `has_distance = false`, the distance
criterion contributes nothing: the whole result is unchanged under arbitrary
changes of the stored distance and of the distance threshold, and — when no
load error short-circuits the verdict — the reasons list is built from the
six other criteria only (no distance entry) and the diagnostic line's
distance slot is `"N/A (No LRF)"`. -/
theorem C3_no_distance_skips (m : Metrics) (cfg : Config)
    (h : m.has_distance = false) :
    (∀ d t, evaluate_image { m with distance := d } { cfg with min_dist := t } =
        evaluate_image m cfg) ∧
    (m.load_error = none →
      (evaluate_image m cfg).2.2 =
        (if m.width < cfg.min_w ∨ m.height < cfg.min_h then [resReason m] else []) ++
        (if m.digital_zoom > cfg.max_zoom then [zoomReason m] else []) ++
        (if intToRat m.iso > intToRat cfg.max_iso then [isoReason m] else []) ++
        (if m.speed > cfg.max_speed then [speedReason m] else []) ++
        (if m.blur_score < cfg.min_blur then [blurReason m] else []) ++
        (if m.brightness < cfg.min_bright then [darkReason m]
         else if m.brightness > cfg.max_bright then [overReason m] else []) ∧
      distSlot m cfg = "N/A (No LRF)" ∧
      (evaluate_image m cfg).2.1 = logLineSpec m cfg) := by
  constructor
  · intro d t
    simp [evaluate_image, h]
  · intro h0
    have hm := evaluate_image_ok m cfg (by simp [strOptTruthy, h0])
    rw [hm]
    refine ⟨?_, by simp [distSlot, h], rfl⟩
    simp [reasonsSpec, h]

/-- A sample record without a rangefinder reading, otherwise within bounds. -/
def noLrfExample : Metrics :=
  { width := 4000, height := 3000, digital_zoom := 1, focal_length := 24,
    iso := 400, blur_score := 300, brightness := 120, distance := 9999,
    speed := 1, gimbal_pitch := 0, load_error := none, meta_error := none,
    has_distance := false }

theorem C3_witness :
    noLrfExample.has_distance = false ∧
    evaluate_image { noLrfExample with distance := 5 }
        { defaultConfig with min_dist := 999 } =
      evaluate_image noLrfExample defaultConfig ∧
    distSlot noLrfExample defaultConfig = "N/A (No LRF)" :=
  ⟨rfl, (C3_no_distance_skips noLrfExample defaultConfig rfl).1 5 999,
    ((C3_no_distance_skips noLrfExample defaultConfig rfl).2 rfl).2.1⟩

/-- C9: two records that differ only in `focal_length` receive the same
verdict and the same reasons list from `evaluate_image`, for every
configuration: the focal length only influences the lens label of the
diagnostic line. -/
theorem C9_focal_noninterference (m : Metrics) (cfg : Config) (f : Rat) :
    (evaluate_image { m with focal_length := f } cfg).1 = (evaluate_image m cfg).1 ∧
    (evaluate_image { m with focal_length := f } cfg).2.2 = (evaluate_image m cfg).2.2 := by
  cases hl : strOptTruthy m.load_error <;>
    constructor <;> simp [evaluate_image, hl]

theorem intToRat_eq_cast (n : Int) : intToRat n = (n : Rat) := by
  have h1 : ((n : Rat)).num = n := Rat.intCast_num n
  have h2 : ((n : Rat)).den = 1 := Rat.intCast_den n
  cases hq : (n : Rat)
  simp_all [intToRat]

theorem intToRat_le (a b : Int) : intToRat a ≤ intToRat b ↔ a ≤ b := by
  rw [intToRat_eq_cast, intToRat_eq_cast]
  exact Int.cast_le

/-- C7: the brightness criterion fails iff the brightness is below
`min_bright` (too dark) or above `max_bright` (overexposed); the emitted
reason is the corresponding formatted string (`"Too Dark (v)"` resp.
`"Overexposed (v)"`); and the two sub-reasons are mutually exclusive: no
single evaluation ever returns a reasons list containing both, for any
configuration of the two bounds. -/
theorem C7_brightness_criterion (m : Metrics) (cfg : Config) :
    (¬ brightPass m cfg ↔
      m.brightness < cfg.min_bright ∨ m.brightness > cfg.max_bright) ∧
    (m.brightness < cfg.min_bright →
      (brightEval m.brightness cfg.min_bright cfg.max_bright).1 = some (darkReason m)) ∧
    (¬ m.brightness < cfg.min_bright → m.brightness > cfg.max_bright →
      (brightEval m.brightness cfg.min_bright cfg.max_bright).1 = some (overReason m)) ∧
    (brightPass m cfg →
      (brightEval m.brightness cfg.min_bright cfg.max_bright).1 = none) ∧
    ¬(darkReason m ∈ (evaluate_image m cfg).2.2 ∧
      overReason m ∈ (evaluate_image m cfg).2.2) := by
  refine ⟨?_, ?_, ?_, ?_, ?_⟩
  · unfold brightPass; tauto
  · intro h; simp [brightEval, h, darkReason]
  · intro h1 h2; simp [brightEval, h1, h2, overReason]
  · intro h
    simp only [brightPass, not_lt] at h
    simp [brightEval, h.1.not_lt, h.2.not_lt]
  · rintro ⟨hdark, hover⟩
    cases hl : strOptTruthy m.load_error with
    | true =>
      cases hle : m.load_error with
      | none => simp [strOptTruthy, hle] at hl
      | some e =>
        have hne : e ≠ "" := by
          by_contra hc
          simp [strOptTruthy, hle, hc] at hl
        rw [evaluate_image_err m cfg e hle hne] at hdark hover
        simp at hdark hover
        exact (overReason_ne_darkReason m m) (hover.trans hdark.symm)
    | false =>
      rw [evaluate_image_ok m cfg hl] at hdark hover
      simp at hdark hover
      have h1 := (darkReason_mem_reasonsSpec m cfg).1 hdark
      have h2 := (overReason_mem_reasonsSpec m cfg).1 hover
      exact h2.1 h1

theorem C7_witness :
    (¬ brightPass isoExample defaultConfig ↔
      isoExample.brightness < defaultConfig.min_bright ∨
        isoExample.brightness > defaultConfig.max_bright) ∧
    ¬(darkReason isoExample ∈ (evaluate_image isoExample defaultConfig).2.2 ∧
      overReason isoExample ∈ (evaluate_image isoExample defaultConfig).2.2) :=
  ⟨(C7_brightness_criterion isoExample defaultConfig).1,
    (C7_brightness_criterion isoExample defaultConfig).2.2.2.2⟩

/-- C10: the too-dark check takes precedence over the overexposed check:
whenever `brightness < min_bright` — including degenerate configurations
with `min_bright > max_bright` where the overexposure condition also holds —
the brightness branch emits only the `"Too Dark"` reason and the
`"(FAIL: Dark)"` status, and the overexposed reason never reaches the
reasons list. -/
theorem C10_too_dark_precedence (m : Metrics) (cfg : Config)
    (h : m.brightness < cfg.min_bright) :
    (brightEval m.brightness cfg.min_bright cfg.max_bright).1 = some (darkReason m) ∧
    (brightEval m.brightness cfg.min_bright cfg.max_bright).2 = "(FAIL: Dark)" ∧
    (m.load_error = none →
      darkReason m ∈ (evaluate_image m cfg).2.2 ∧
      overReason m ∉ (evaluate_image m cfg).2.2) := by
  refine ⟨by simp [brightEval, h, darkReason], by simp [brightEval, h], ?_⟩
  intro h0
  rw [evaluate_image_ok m cfg (by simp [strOptTruthy, h0])]
  constructor
  · exact (darkReason_mem_reasonsSpec m cfg).2 h
  · intro hc
    simp at hc
    exact ((overReason_mem_reasonsSpec m cfg).1 hc).1 h

/-- A too-dark record against a degenerate configuration whose lower
brightness bound exceeds its upper one. -/
def darkDegenExample : Metrics := { isoExample with iso := 400, brightness := 10 }

/-- The degenerate configuration `min_bright = 20 > max_bright = 5`. -/
def degenConfig : Config := { defaultConfig with max_bright := 5 }

theorem C10_witness :
    darkDegenExample.brightness < degenConfig.min_bright ∧
    darkDegenExample.brightness > degenConfig.max_bright ∧
    (brightEval darkDegenExample.brightness degenConfig.min_bright
        degenConfig.max_bright).1 = some (darkReason darkDegenExample) ∧
    (brightEval darkDegenExample.brightness degenConfig.min_bright
        degenConfig.max_bright).2 = "(FAIL: Dark)" ∧
    (darkReason darkDegenExample ∈ (evaluate_image darkDegenExample degenConfig).2.2 ∧
      overReason darkDegenExample ∉ (evaluate_image darkDegenExample degenConfig).2.2) :=
  ⟨by decide, by decide,
    (C10_too_dark_precedence darkDegenExample degenConfig (by decide)).1,
    (C10_too_dark_precedence darkDegenExample degenConfig (by decide)).2.1,
    (C10_too_dark_precedence darkDegenExample degenConfig (by decide)).2.2 rfl⟩

/-- C6: monotonicity of each criterion in its threshold, for a fixed record.
Tightening a threshold across the record's value flips the criterion from
pass to fail, and tightening never flips fail to pass; this holds
independently for blur/min_blur, width/min_w, height/min_h (each given the
other dimension passes), digitalZoom/max_zoom, iso/max_iso,
distance/min_dist, speed/max_speed, and brightness against each of its two
bounds (given the other bound passes). -/
theorem C6_threshold_monotonicity (m : Metrics) (cfg : Config) :
    (∀ t1 t2 : Rat, t1 ≤ m.blur_score → m.blur_score < t2 →
      blurPass m { cfg with min_blur := t1 } ∧ ¬ blurPass m { cfg with min_blur := t2 }) ∧
    (∀ t1 t2 : Rat, t1 ≤ t2 → blurPass m { cfg with min_blur := t2 } →
      blurPass m { cfg with min_blur := t1 }) ∧
    (∀ t1 t2 : Int, t1 ≤ m.width → m.width < t2 → cfg.min_h ≤ m.height →
      resPass m { cfg with min_w := t1 } ∧ ¬ resPass m { cfg with min_w := t2 }) ∧
    (∀ t1 t2 : Int, t1 ≤ t2 → resPass m { cfg with min_w := t2 } →
      resPass m { cfg with min_w := t1 }) ∧
    (∀ t1 t2 : Int, t1 ≤ m.height → m.height < t2 → cfg.min_w ≤ m.width →
      resPass m { cfg with min_h := t1 } ∧ ¬ resPass m { cfg with min_h := t2 }) ∧
    (∀ t1 t2 : Int, t1 ≤ t2 → resPass m { cfg with min_h := t2 } →
      resPass m { cfg with min_h := t1 }) ∧
    (∀ t1 t2 : Rat, m.digital_zoom ≤ t1 → t2 < m.digital_zoom →
      zoomPass m { cfg with max_zoom := t1 } ∧ ¬ zoomPass m { cfg with max_zoom := t2 }) ∧
    (∀ t1 t2 : Rat, t1 ≤ t2 → zoomPass m { cfg with max_zoom := t1 } →
      zoomPass m { cfg with max_zoom := t2 }) ∧
    (∀ t1 t2 : Int, m.iso ≤ t1 → t2 < m.iso →
      isoPass m { cfg with max_iso := t1 } ∧ ¬ isoPass m { cfg with max_iso := t2 }) ∧
    (∀ t1 t2 : Int, t1 ≤ t2 → isoPass m { cfg with max_iso := t1 } →
      isoPass m { cfg with max_iso := t2 }) ∧
    (∀ t1 t2 : Rat, t1 ≤ m.distance → m.distance < t2 →
      distPass m { cfg with min_dist := t1 } ∧ ¬ distPass m { cfg with min_dist := t2 }) ∧
    (∀ t1 t2 : Rat, t1 ≤ t2 → distPass m { cfg with min_dist := t2 } →
      distPass m { cfg with min_dist := t1 }) ∧
    (∀ t1 t2 : Rat, m.speed ≤ t1 → t2 < m.speed →
      speedPass m { cfg with max_speed := t1 } ∧ ¬ speedPass m { cfg with max_speed := t2 }) ∧
    (∀ t1 t2 : Rat, t1 ≤ t2 → speedPass m { cfg with max_speed := t1 } →
      speedPass m { cfg with max_speed := t2 }) ∧
    (∀ t1 t2 : Rat, t1 ≤ m.brightness → m.brightness < t2 →
      m.brightness ≤ cfg.max_bright →
      brightPass m { cfg with min_bright := t1 } ∧
        ¬ brightPass m { cfg with min_bright := t2 }) ∧
    (∀ t1 t2 : Rat, t1 ≤ t2 → brightPass m { cfg with min_bright := t2 } →
      brightPass m { cfg with min_bright := t1 }) ∧
    (∀ t1 t2 : Rat, m.brightness ≤ t1 → t2 < m.brightness →
      cfg.min_bright ≤ m.brightness →
      brightPass m { cfg with max_bright := t1 } ∧
        ¬ brightPass m { cfg with max_bright := t2 }) ∧
    (∀ t1 t2 : Rat, t1 ≤ t2 → brightPass m { cfg with max_bright := t1 } →
      brightPass m { cfg with max_bright := t2 }) := by
  refine ⟨?_, ?_, ?_, ?_, ?_, ?_, ?_, ?_, ?_, ?_, ?_, ?_, ?_, ?_, ?_, ?_, ?_, ?_⟩ <;>
    intros <;>
    (try simp_all [blurPass, resPass, zoomPass, isoPass, distPass, speedPass,
      brightPass, intToRat_le, not_or, not_lt, not_le]) <;>
    first
    | omega
    | linarith

theorem C6_witness :
    ((100 : Rat) ≤ isoExample.blur_score ∧ isoExample.blur_score < 400) ∧
    (blurPass isoExample { defaultConfig with min_blur := 100 } ∧
      ¬ blurPass isoExample { defaultConfig with min_blur := 400 }) :=
  ⟨⟨by decide, by decide⟩,
    (C6_threshold_monotonicity isoExample defaultConfig).1 100 400
      (by decide) (by decide)⟩

theorem str_suffix_append (x y : String) : y.data <:+ (x ++ y).data :=
  ⟨x.data, (String.data_append x y).symm⟩

/-- C8 (counterexample): for a record whose only failure is darkness, the
diagnostic line ends in the brightness slot `"10.0 (FAIL: Dark)"`; it is not
of the claimed shape `... ++ "<value><unit> (PASS)"` nor
`... ++ "<value><unit> (FAIL)"`, because the failing brightness annotation is
`"(FAIL: Dark)"`, not `"(FAIL)"`. -/
theorem C8_counterexample :
    (evaluate_image darkDegenExample defaultConfig).2.1 =
      "Lens: Wide (24mm) | DigZoom: 1.00x (PASS) | Dist: 50.00m (PASS) | Speed: 1.20m/s (PASS) | Blur: 300.00 (PASS) | Bright: 10.0 (FAIL: Dark)" ∧
    ¬ (∃ rest vu : String,
        "Lens: Wide (24mm) | DigZoom: 1.00x (PASS) | Dist: 50.00m (PASS) | Speed: 1.20m/s (PASS) | Blur: 300.00 (PASS) | Bright: 10.0 (FAIL: Dark)"
          = rest ++ (vu ++ " (PASS)") ∨
        "Lens: Wide (24mm) | DigZoom: 1.00x (PASS) | Dist: 50.00m (PASS) | Speed: 1.20m/s (PASS) | Blur: 300.00 (PASS) | Bright: 10.0 (FAIL: Dark)"
          = rest ++ (vu ++ " (FAIL)")) := by
  refine ⟨by decide, ?_⟩
  rintro ⟨rest, vu, h | h⟩
  · have h1 := (str_suffix_append vu " (PASS)").trans (str_suffix_append rest (vu ++ " (PASS)"))
    rw [← h] at h1
    exact absurd h1 (by decide)
  · have h1 := (str_suffix_append vu " (FAIL)").trans (str_suffix_append rest (vu ++ " (FAIL)"))
    rw [← h] at h1
    exact absurd h1 (by decide)

/-- C8 (amended): with no load error the diagnostic line is the single
fixed-format string concatenating, in order, the lens label ("Wide" when
focal length is at most 80mm-eq, "Zoom" above), then the labelled
digital-zoom, distance, speed, blur and brightness slots joined by the
constant separator " | "; the graded slots render as
"<value><unit> (PASS|FAIL)", except that the distance slot shows
"N/A (No LRF)" when no rangefinder reading exists and the brightness slot
annotates failures as "(FAIL: Dark)" or "(FAIL: Bright)".  The right-hand
side does not depend on the verdict, so the full diagnostic is produced
whether the image is accepted or rejected. -/
theorem C8_diagnostic_format (m : Metrics) (cfg : Config)
    (h : m.load_error = none) :
    (evaluate_image m cfg).2.1 =
      "Lens: " ++ (if m.focal_length > 80 then "Zoom" else "Wide") ++ " (" ++
          Int.repr (ratTrunc m.focal_length) ++ "mm) | " ++
        "DigZoom: " ++ (fmtFixed 2 m.digital_zoom ++ "x" ++ " " ++
          (if m.digital_zoom ≤ cfg.max_zoom then "(PASS)" else "(FAIL)")) ++ " | " ++
        "Dist: " ++ (if m.has_distance then
            fmtFixed 2 m.distance ++ "m" ++ " " ++
              (if m.distance ≥ cfg.min_dist then "(PASS)" else "(FAIL)")
          else "N/A (No LRF)") ++ " | " ++
        "Speed: " ++ (fmtFixed 2 m.speed ++ "m/s" ++ " " ++
          (if m.speed ≤ cfg.max_speed then "(PASS)" else "(FAIL)")) ++ " | " ++
        "Blur: " ++ (fmtFixed 2 m.blur_score ++ "" ++ " " ++
          (if m.blur_score ≥ cfg.min_blur then "(PASS)" else "(FAIL)")) ++ " | " ++
        "Bright: " ++ (fmtFixed 1 m.brightness ++ " " ++
          (if m.brightness < cfg.min_bright then "(FAIL: Dark)"
           else if m.brightness > cfg.max_bright then "(FAIL: Bright)" else "(PASS)")) := by
  rw [(evaluate_image_ok m cfg (by simp [strOptTruthy, h]))]
  by_cases hb1 : m.brightness < cfg.min_bright <;>
  by_cases hb2 : m.brightness > cfg.max_bright <;>
  by_cases hd : m.has_distance = true <;>
  simp [logLineSpec, lensLabel, zoomSlot, distSlot, speedSlot, blurSlot,
    brightSlot, passFail, brightEval, zoomPass, distPass, speedPass, blurPass,
    hb1, hb2, hd]

theorem C8_witness :
    isoExample.load_error = none ∧
    (evaluate_image isoExample defaultConfig).1 = false ∧
    (evaluate_image isoExample defaultConfig).2.1 =
      "Lens: " ++ (if isoExample.focal_length > 80 then "Zoom" else "Wide") ++ " (" ++
          Int.repr (ratTrunc isoExample.focal_length) ++ "mm) | " ++
        "DigZoom: " ++ (fmtFixed 2 isoExample.digital_zoom ++ "x" ++ " " ++
          (if isoExample.digital_zoom ≤ defaultConfig.max_zoom then "(PASS)" else "(FAIL)")) ++ " | " ++
        "Dist: " ++ (if isoExample.has_distance then
            fmtFixed 2 isoExample.distance ++ "m" ++ " " ++
              (if isoExample.distance ≥ defaultConfig.min_dist then "(PASS)" else "(FAIL)")
          else "N/A (No LRF)") ++ " | " ++
        "Speed: " ++ (fmtFixed 2 isoExample.speed ++ "m/s" ++ " " ++
          (if isoExample.speed ≤ defaultConfig.max_speed then "(PASS)" else "(FAIL)")) ++ " | " ++
        "Blur: " ++ (fmtFixed 2 isoExample.blur_score ++ "" ++ " " ++
          (if isoExample.blur_score ≥ defaultConfig.min_blur then "(PASS)" else "(FAIL)")) ++ " | " ++
        "Bright: " ++ (fmtFixed 1 isoExample.brightness ++ " " ++
          (if isoExample.brightness < defaultConfig.min_bright then "(FAIL: Dark)"
           else if isoExample.brightness > defaultConfig.max_bright then "(FAIL: Bright)" else "(PASS)")) ∧
    (evaluate_image isoExample defaultConfig).2.1 =
      "Lens: Wide (24mm) | DigZoom: 1.00x (PASS) | Dist: 50.00m (PASS) | Speed: 1.20m/s (PASS) | Blur: 300.00 (PASS) | Bright: 120.0 (PASS)" :=
  ⟨rfl, by decide, C8_diagnostic_format isoExample defaultConfig rfl, by decide⟩

theorem computeSpeedVal_parse_fails (env : ExtractorEnv) (s : String)
    (h : floatList env.strFloat (splitComma s) = none) :
    computeSpeedVal env (.str s) = 0 := by
  simp [computeSpeedVal, h]

theorem computeSpeedVal_short (env : ExtractorEnv) (s : String)
    (h : (splitComma s).length < 3) : computeSpeedVal env (.str s) = 0 := by
  cases hfl : floatList env.strFloat (splitComma s) with
  | none => simp [computeSpeedVal, hfl]
  | some vs =>
    have hlen := floatList_length _ _ _ hfl
    rcases vs with _ | ⟨a, _ | ⟨b, _ | ⟨c, r⟩⟩⟩ <;>
      simp_all [computeSpeedVal, hfl] <;> omega

theorem get_image_metrics_tail (env : ExtractorEnv) (md : RawMeta)
    (vis : Except String (Rat × Rat)) (h : metaPrefixOk env md) (g : Rat)
    (hg : pyFloat env ((md.gimbalPitchDegree).getD (.int 0)) = some g) :
    (get_image_metrics env (.ok (some md)) vis).gimbal_pitch = g ∧
    (get_image_metrics env (.ok (some md)) vis).meta_error = none := by
  obtain ⟨h1, h2, h3, h4⟩ := h
  rcases Option.isSome_iff_exists.1 h1 with ⟨dz, hdz⟩
  rcases Option.isSome_iff_exists.1 h2 with ⟨isoV, hiso⟩
  rcases Option.isSome_iff_exists.1 h3 with ⟨fl, hfl⟩
  cases hl : md.lrfTargetDistance with
  | none =>
    cases hf : md.flightSpeed <;> cases vis <;>
      constructor <;>
      simp_all [get_image_metrics, extract_meta, extract_speed_gimbal, initMetrics] <;>
      split <;> rfl
  | some dv =>
    rcases Option.isSome_iff_exists.1 (h4 dv hl) with ⟨d, hd⟩
    cases hf : md.flightSpeed <;> cases vis <;>
      constructor <;>
      simp_all [get_image_metrics, extract_meta, extract_speed_gimbal, initMetrics] <;>
      split <;> rfl



/-- C5: for every speed tag value, if the comma-delimited string has fewer
than three components, or any component fails to parse as a float, the
record's speed is 0.0; if parsing succeeds (at least three components, all
converting), the speed is the Euclidean magnitude (`sqrt` of the sum of
squares) of the first three components; a missing speed tag also yields 0.0.
The last conjunct ties the parse to the stored record: when the earlier
metadata conversions succeed, the stored speed is exactly the parse of the
tag string. -/
theorem C5_speed_magnitude (env : ExtractorEnv) (s : String) (md : RawMeta)
    (vis : Except String (Rat × Rat)) (hok : metaPrefixOk env md) :
    ((splitComma s).length < 3 → computeSpeedVal env (.str s) = 0) ∧
    ((∃ x ∈ splitComma s, env.strFloat x = none) → computeSpeedVal env (.str s) = 0) ∧
    (∀ a b c rest, floatList env.strFloat (splitComma s) = some (a :: b :: c :: rest) →
      computeSpeedVal env (.str s) = env.sqrt (a * a + b * b + c * c)) ∧
    (md.flightSpeed = none → (get_image_metrics env (.ok (some md)) vis).speed = 0) ∧
    (md.flightSpeed = some (.str s) →
      (get_image_metrics env (.ok (some md)) vis).speed = computeSpeedVal env (.str s)) := by
  refine ⟨computeSpeedVal_short env s, ?_, ?_, ?_, ?_⟩
  · rintro ⟨x, hx, hfx⟩
    exact computeSpeedVal_parse_fails env s (floatList_none_of_mem env.strFloat _ x hx hfx)
  · intro a b c rest hfl
    simp [computeSpeedVal, hfl]
  · exact get_image_metrics_speed_noTag env md vis
  · intro hf
    rw [get_image_metrics_speed env md vis hok, hf]
    by_cases hs : s = ""
    · subst hs
      cases hsf : env.strFloat "" <;>
        simp [pyTruthy, computeSpeedVal, splitComma, splitCommaAux, floatList, hsf]
    · simp [pyTruthy, hs]

def speedParseEnv : ExtractorEnv :=
  { strFloat := fun s =>
      if s = "0" then some 0 else if s = "1" then some 1
      else if s = "2" then some 2 else if s = "3" then some 3
      else if s = "4" then some 4 else none,
    strInt := fun _ => none,
    sqrt := fun _ => 5 }

def badDistanceMeta : RawMeta :=
  { lrfTargetDistance := some (.str "abc"), flightSpeed := some (.str "0,3,4"),
    gimbalPitchDegree := some (.float 7) }

def shortSpeedMeta : RawMeta :=
  { flightSpeed := some (.str "1,2"), gimbalPitchDegree := some (.float 7) }

def speedOnlyMeta : RawMeta := { flightSpeed := some (.str "0,3,4") }

/-- C4 (counterexample): with an unparsable distance tag `"abc"`, the raised
conversion error aborts the whole metadata block: although the flight-speed
tag `"0,3,4"` is present and parses to magnitude 5 and the gimbal tag reads
7, the extractor leaves speed at 0 and gimbal pitch at 0 — the remaining
metadata fields are NOT normalized, contradicting the claim. -/
theorem C4_counterexample :
    badDistanceMeta.lrfTargetDistance = some (.str "abc") ∧
    speedParseEnv.strFloat "abc" = none ∧
    badDistanceMeta.flightSpeed = some (.str "0,3,4") ∧
    floatList speedParseEnv.strFloat (splitComma "0,3,4") = some [0, 3, 4] ∧
    computeSpeedVal speedParseEnv (.str "0,3,4") = 5 ∧
    badDistanceMeta.gimbalPitchDegree = some (.float 7) ∧
    (get_image_metrics speedParseEnv (.ok (some badDistanceMeta)) (.ok (300, 120))).speed = 0 ∧
    (get_image_metrics speedParseEnv (.ok (some badDistanceMeta)) (.ok (300, 120))).gimbal_pitch = 0 ∧
    (get_image_metrics speedParseEnv (.ok (some badDistanceMeta)) (.ok (300, 120))).has_distance = false ∧
    (get_image_metrics speedParseEnv (.ok (some badDistanceMeta)) (.ok (300, 120))).meta_error = some convErr := by
  refine ⟨rfl, by decide, rfl, by decide, by decide, rfl, by decide, by decide, by decide, by decide⟩

/-- C4 (amended): a malformed optional field never aborts processing of the
file, and each field failing to parse reverts to its safe default — but the
two malformed fields behave differently.  An unparsable distance value
leaves `has_distance = false` and records a metadata error, yet it abandons
the rest of the metadata block: speed and gimbal pitch keep their defaults
(while the visual analysis still runs and fills blur/brightness).  A
malformed speed vector (unparsable component or fewer than three
components) is absorbed by its inner handler: speed reverts to 0.0, the
following gimbal field is still parsed, and no metadata error is set. -/
theorem C4_malformed_optional_fields (env : ExtractorEnv) (md : RawMeta)
    (vis : Except String (Rat × Rat))
    (h1 : (pyFloat env ((md.digitalZoomRatio).getD (.float 1))).isSome)
    (h2 : (pyInt env ((md.isoTag).getD (.int 0))).isSome)
    (h3 : (pyFloat env (pyOr ((md.focalLength35efl).getD (.int 0))
        ((md.focalLengthIn35mm).getD (.int 0)))).isSome) :
    (∀ s, md.lrfTargetDistance = some (.str s) → env.strFloat s = none →
      (get_image_metrics env (.ok (some md)) vis).has_distance = false ∧
      (get_image_metrics env (.ok (some md)) vis).meta_error = some convErr ∧
      (get_image_metrics env (.ok (some md)) vis).speed = 0 ∧
      (get_image_metrics env (.ok (some md)) vis).gimbal_pitch = 0 ∧
      (∀ bb, vis = .ok bb →
        (get_image_metrics env (.ok (some md)) vis).blur_score = bb.1 ∧
        (get_image_metrics env (.ok (some md)) vis).brightness = bb.2)) ∧
    (∀ s g, md.flightSpeed = some (.str s) →
      (floatList env.strFloat (splitComma s) = none ∨ (splitComma s).length < 3) →
      (∀ dv, md.lrfTargetDistance = some dv → (pyFloat env dv).isSome) →
      pyFloat env ((md.gimbalPitchDegree).getD (.int 0)) = some g →
      (get_image_metrics env (.ok (some md)) vis).speed = 0 ∧
      (get_image_metrics env (.ok (some md)) vis).gimbal_pitch = g ∧
      (get_image_metrics env (.ok (some md)) vis).meta_error = none) := by
  constructor
  · intro s hl hsf
    rcases Option.isSome_iff_exists.1 h1 with ⟨dz, hdz⟩
    rcases Option.isSome_iff_exists.1 h2 with ⟨isoV, hiso⟩
    rcases Option.isSome_iff_exists.1 h3 with ⟨fl, hfl⟩
    cases vis <;>
      simp_all [get_image_metrics, extract_meta, extract_speed_gimbal, initMetrics, pyFloat]
  · intro s g hf hmal hdist hg
    have hok : metaPrefixOk env md := ⟨h1, h2, h3, hdist⟩
    have hsp : (get_image_metrics env (.ok (some md)) vis).speed = 0 := by
      rw [get_image_metrics_speed env md vis hok, hf]
      by_cases hs : s = ""
      · simp [pyTruthy, hs]
      · rcases hmal with hm | hm
        · simp [pyTruthy, hs, computeSpeedVal_parse_fails env s hm]
        · simp [pyTruthy, hs, computeSpeedVal_short env s hm]
    have htl := get_image_metrics_tail env md vis hok g hg
    exact ⟨hsp, htl.1, htl.2⟩

theorem C4_witness :
    (pyFloat speedParseEnv ((shortSpeedMeta.digitalZoomRatio).getD (.float 1))).isSome ∧
    (pyInt speedParseEnv ((shortSpeedMeta.isoTag).getD (.int 0))).isSome ∧
    (pyFloat speedParseEnv (pyOr ((shortSpeedMeta.focalLength35efl).getD (.int 0))
        ((shortSpeedMeta.focalLengthIn35mm).getD (.int 0)))).isSome ∧
    shortSpeedMeta.flightSpeed = some (.str "1,2") ∧
    (splitComma "1,2").length < 3 ∧
    (get_image_metrics speedParseEnv (.ok (some shortSpeedMeta)) (.ok (300, 120))).speed = 0 ∧
    (get_image_metrics speedParseEnv (.ok (some shortSpeedMeta)) (.ok (300, 120))).gimbal_pitch = 7 ∧
    (get_image_metrics speedParseEnv (.ok (some shortSpeedMeta)) (.ok (300, 120))).meta_error = none := by
  refine ⟨rfl, rfl, rfl, rfl, by decide, ?_⟩
  exact (C4_malformed_optional_fields speedParseEnv shortSpeedMeta (.ok (300, 120))
      rfl rfl rfl).2 "1,2" 7 rfl (Or.inr (by decide)) (fun dv h => nomatch h) rfl

theorem C5_witness :
    metaPrefixOk speedParseEnv speedOnlyMeta ∧
    speedOnlyMeta.flightSpeed = some (.str "0,3,4") ∧
    floatList speedParseEnv.strFloat (splitComma "0,3,4") = some [0, 3, 4] ∧
    computeSpeedVal speedParseEnv (.str "0,3,4") = speedParseEnv.sqrt (0 * 0 + 3 * 3 + 4 * 4) ∧
    (get_image_metrics speedParseEnv (.ok (some speedOnlyMeta)) (.ok (300, 120))).speed =
      computeSpeedVal speedParseEnv (.str "0,3,4") ∧
    computeSpeedVal speedParseEnv (.str "0,3,4") = 5 := by
  have hok : metaPrefixOk speedParseEnv speedOnlyMeta :=
    ⟨rfl, rfl, rfl, fun dv h => nomatch h⟩
  refine ⟨hok, rfl, by decide, ?_, ?_, by decide⟩
  · exact (C5_speed_magnitude speedParseEnv "0,3,4" speedOnlyMeta (.ok (300, 120)) hok).2.2.1
      0 3 4 [] (by decide)
  · exact (C5_speed_magnitude speedParseEnv "0,3,4" speedOnlyMeta (.ok (300, 120)) hok).2.2.2.2 rfl

end SortImages
